import Mathlib

/-!
Verification of the access-key lifecycle handlers of `api/projects/keys.go`
(package `projects`): `AddKey`, `UpdateKey`, `RemoveKey`.

The Go handlers are embedded shallowly as pure Lean functions.  HTTP
transport (request binding, JSON encoding) is out of scope; a handler takes
the already-bound payload and the context-resolved entities as arguments.
The external `Store` collaborator (`helpers.Store(r)`) is a record of
response functions supplied as a parameter, and every call the handler makes
to the store is recorded in an explicit trace, so that claims about "what
was handed to the store" and "no store call occurred" are directly statable.
Go nil pointers are `Option`; a nil-pointer dereference is made explicit as
the `Response.nilDeref` outcome instead of a runtime panic.
-/

namespace Keys

/-- Mirror of `db.Project` (only the field the handlers read). -/
structure Project where
  id : Int
  deriving DecidableEq

/-- Mirror of `db.AccessKey`: `ProjectID *int` and `Secret *string` are
nullable in Go, hence `Option` here. -/
structure AccessKey where
  id : Int
  projectID : Option Int
  name : String
  type : String
  secret : Option String
  removed : Bool
  deriving DecidableEq

/-- Mirror of `db.Event` (the fields the handlers set; all are pointers in
Go, so `Option` here; a field the handler leaves unset is `none`). -/
structure Event where
  projectID : Option Int
  objectType : Option String
  objectID : Option Int
  description : Option String
  deriving DecidableEq

/-- Store-layer errors: `db.ErrInvalidOperation` is the distinguished
in-use conflict; everything else is collapsed into `other`. -/
inductive DbErr where
  | invalidOperation
  | other (msg : String)
  deriving DecidableEq

/-- One call made by a handler to the store collaborator, with the exact
argument handed over. -/
inductive StoreCall where
  | createAccessKey (key : AccessKey)
  | updateAccessKey (key : AccessKey)
  | deleteAccessKeySoft (projectID : Int) (keyID : Int)
  | deleteAccessKey (projectID : Int) (keyID : Int)
  | createEvent (e : Event)
  deriving DecidableEq

/-- Behaviour of the external store collaborator: what each method returns.
`CreateAccessKey` returns the persisted key (with the store-assigned ID) or
an error; the mutation methods return an optional error; `CreateEvent`
returns the created event or an error. -/
structure Store where
  createAccessKey : AccessKey → Except DbErr AccessKey
  updateAccessKey : AccessKey → Option DbErr
  deleteAccessKeySoft : Int → Int → Option DbErr
  deleteAccessKey : Int → Int → Option DbErr
  createEvent : Event → Except DbErr Event

/-- Observable outcome written to the `http.ResponseWriter`. -/
inductive Response where
  /-- `helpers.WriteJSON(w, http.StatusBadRequest, map[error: msg])`. -/
  | badRequest (error : String)
  /-- `helpers.WriteJSON(w, http.StatusBadRequest, map[error: msg, inUse: flag])`. -/
  | badRequestInUse (error : String) (inUse : Bool)
  /-- `helpers.WriteError(w, err)`: generic store-failure translation. -/
  | writeError (e : DbErr)
  /-- `w.WriteHeader(http.StatusNoContent)`: the success signal. -/
  | noContent
  /-- The handler dereferenced a nil pointer (Go runtime panic). -/
  | nilDeref
  /-- The handler returned without writing any status (no success signal). -/
  | noneWritten
  deriving DecidableEq

/-- Full observable behaviour of one handler invocation: the response, the
ordered trace of store calls, and the errors passed to `log.Error`. -/
structure HandlerOutput where
  response : Response
  calls : List StoreCall
  logged : List DbErr
  deriving DecidableEq

/-- Go `key.Secret == nil || len(*key.Secret) == 0`. -/
def secretEmpty : Option String → Bool
  | none => true
  | some s => s.length == 0

/-- Lines 91-114 of `AddKey`, after validation passed: `*key.Secret += "\n"`
(an unconditional dereference of the possibly-nil secret), then
`CreateAccessKey`, then the audit event whose write failure is only
logged before the no-content success signal. -/
def AddKeyAfterValidation (store : Store) (key : AccessKey) : HandlerOutput :=
  match key.secret with
  | none => ⟨.nilDeref, [], []⟩
  | some s =>
    let key2 : AccessKey := { key with secret := some (s ++ "\n") }
    match store.createAccessKey key2 with
    | .error e => ⟨.writeError e, [.createAccessKey key2], []⟩
    | .ok newKey =>
      let ev : Event :=
        { projectID := newKey.projectID
          objectType := some "key"
          objectID := some newKey.id
          description := some ("Access Key " ++ key2.name ++ " created") }
      match store.createEvent ev with
      | .error e => ⟨.noContent, [.createAccessKey key2, .createEvent ev], [e]⟩
      | .ok _ => ⟨.noContent, [.createAccessKey key2, .createEvent ev], []⟩

/-- Handler `AddKey` (lines 59-115): project-mismatch check, then the
`switch key.Type` validation, then the persistence path. -/
def AddKey (store : Store) (project : Project) (key : AccessKey) : HandlerOutput :=
  if key.projectID = none ∨ key.projectID ≠ some project.id then
    ⟨.badRequest "Project ID in body and URL must be the same", [], []⟩
  else if key.type = "aws" ∨ key.type = "gcloud" ∨ key.type = "do" then
    AddKeyAfterValidation store key
  else if key.type = "ssh" then
    if secretEmpty key.secret then
      ⟨.badRequest "SSH Secret empty", [], []⟩
    else
      AddKeyAfterValidation store key
  else
    ⟨.badRequest "Invalid key type", [], []⟩

/-- Lines 144-150 of `UpdateKey`: the secret-merge policy.  When the payload
secret is nil or empty the previous key's secret pointer is carried over
unchanged; otherwise a newline is appended to the supplied secret. -/
def mergedKey (oldKey : AccessKey) (key : AccessKey) : AccessKey :=
  match key.secret with
  | none => { key with secret := oldKey.secret }
  | some s =>
    if s.length == 0 then { key with secret := oldKey.secret }
    else { key with secret := some (s ++ "\n") }

/-- Lines 144-173 of `UpdateKey`, after validation passed: the secret-merge,
then `UpdateAccessKey`, then the audit event referencing the old key; an
event-write failure is logged and the handler returns early, so the
no-content success signal is never written. -/
def UpdateKeyAfterValidation (store : Store) (oldKey : AccessKey) (key : AccessKey) : HandlerOutput :=
  let key2 : AccessKey := mergedKey oldKey key
  match store.updateAccessKey key2 with
  | some e => ⟨.writeError e, [.updateAccessKey key2], []⟩
  | none =>
    let ev : Event :=
      { projectID := oldKey.projectID
        objectType := some "key"
        objectID := some oldKey.id
        description := some ("Access Key " ++ key2.name ++ " updated") }
    match store.createEvent ev with
    | .error e => ⟨.noneWritten, [.updateAccessKey key2, .createEvent ev], [e]⟩
    | .ok _ => ⟨.noContent, [.updateAccessKey key2, .createEvent ev], []⟩

/-- Handler `UpdateKey` (lines 119-173): `oldKey` is the context-resolved
existing key loaded by `KeyMiddleware`, `key` the bound update payload. -/
def UpdateKey (store : Store) (oldKey : AccessKey) (key : AccessKey) : HandlerOutput :=
  if key.type = "aws" ∨ key.type = "gcloud" ∨ key.type = "do" then
    UpdateKeyAfterValidation store oldKey key
  else if key.type = "ssh" then
    if secretEmpty key.secret then
      ⟨.badRequest "SSH Secret empty", [], []⟩
    else
      UpdateKeyAfterValidation store oldKey key
  else
    ⟨.badRequest "Invalid key type", [], []⟩

/-- Lines 201-212 of `RemoveKey`: the deletion succeeded; emit the audit
event (note: only `ProjectID` and `Description` are set on it), logging a
write failure before the no-content success signal. -/
def RemoveKeyEmitEvent (store : Store) (key : AccessKey) (calls : List StoreCall) : HandlerOutput :=
  let ev : Event :=
    { projectID := key.projectID
      objectType := none
      objectID := none
      description := some ("Access Key " ++ key.name ++ " deleted") }
  match store.createEvent ev with
  | .error e => ⟨.noContent, calls ++ [.createEvent ev], [e]⟩
  | .ok _ => ⟨.noContent, calls ++ [.createEvent ev], []⟩

/-- Handler `RemoveKey` (lines 176-213): `key` is the context-resolved key,
`setRemoved` the raw query parameter.  `softDeletion` is true exactly when
the parameter is the empty string; the hard-delete branch translates the
store's `ErrInvalidOperation` into the distinguished in-use response.  Both
branches dereference `*key.ProjectID`. -/
def RemoveKey (store : Store) (key : AccessKey) (setRemoved : String) : HandlerOutput :=
  let softDeletion := setRemoved.length == 0
  match key.projectID with
  | none => ⟨.nilDeref, [], []⟩
  | some pid =>
    if softDeletion then
      match store.deleteAccessKeySoft pid key.id with
      | some e => ⟨.writeError e, [.deleteAccessKeySoft pid key.id], []⟩
      | none => RemoveKeyEmitEvent store key [.deleteAccessKeySoft pid key.id]
    else
      match store.deleteAccessKey pid key.id with
      | some e =>
        if e = DbErr.invalidOperation then
          ⟨.badRequestInUse "Inventory is in use by one or more templates" true,
           [.deleteAccessKey pid key.id], []⟩
        else
          ⟨.writeError e, [.deleteAccessKey pid key.id], []⟩
      | none => RemoveKeyEmitEvent store key [.deleteAccessKey pid key.id]

/-- The events a trace of store calls handed to `CreateEvent`, in order. -/
def emittedEvents : List StoreCall → List Event
  | [] => []
  | .createEvent e :: rest => e :: emittedEvents rest
  | _ :: rest => emittedEvents rest

/-- The keys a trace handed to `UpdateAccessKey`, in order. -/
def updatedKeys : List StoreCall → List AccessKey
  | [] => []
  | .updateAccessKey k :: rest => k :: updatedKeys rest
  | _ :: rest => updatedKeys rest

/-- The keys a trace handed to `CreateAccessKey`, in order. -/
def createdKeys : List StoreCall → List AccessKey
  | [] => []
  | .createAccessKey k :: rest => k :: createdKeys rest
  | _ :: rest => createdKeys rest

/-- A response produced by the validation layer (a plain 400 with an error
message), as opposed to a store failure, a success, or a crash. -/
def isValidationError : Response → Bool
  | .badRequest _ => true
  | _ => false

/-- A store in which every operation succeeds: `CreateAccessKey` assigns
ID 42, the other mutations report no error, `CreateEvent` echoes back. -/
def okStore : Store :=
  { createAccessKey := fun k => .ok { k with id := 42 }
    updateAccessKey := fun _ => none
    deleteAccessKeySoft := fun _ _ => none
    deleteAccessKey := fun _ _ => none
    createEvent := fun e => .ok e }

/-- `okStore` with every audit-event write failing with the given error. -/
def evFailStore (err : DbErr) : Store :=
  { okStore with createEvent := fun _ => .error err }

/-- `okStore` with hard deletion blocked by the in-use referential
conflict. -/
def inUseStore : Store :=
  { okStore with deleteAccessKey := fun _ _ => some .invalidOperation }

/-! Helper lemmas shared by the claim theorems. -/

theorem length_beq_zero_eq_false (s : String) (h : s ≠ "") :
    (s.length == 0) = false := by
  simp only [beq_eq_false_iff_ne, ne_eq]
  intro h0
  apply h
  cases s with
  | mk data =>
    simp only [String.length] at h0
    simp only [List.length_eq_zero] at h0
    subst h0
    rfl

theorem mergedKey_of_empty (oldKey key : AccessKey) (h : secretEmpty key.secret = true) :
    mergedKey oldKey key = { key with secret := oldKey.secret } := by
  unfold mergedKey
  cases hks : key.secret with
  | none => rfl
  | some s =>
    rw [hks] at h
    simp only [secretEmpty] at h
    simp [h]

theorem mergedKey_of_fresh (oldKey key : AccessKey) (s : String)
    (hks : key.secret = some s) (hs : s ≠ "") :
    mergedKey oldKey key = { key with secret := some (s ++ "\n") } := by
  unfold mergedKey
  rw [hks]
  simp [length_beq_zero_eq_false s hs]

theorem mergedKey_name (oldKey key : AccessKey) :
    (mergedKey oldKey key).name = key.name := by
  unfold mergedKey
  cases key.secret with
  | none => rfl
  | some s =>
    by_cases h : (s.length == 0) = true
    · simp [h]
    · simp [h]

theorem mergedKey_projectID (oldKey key : AccessKey) :
    (mergedKey oldKey key).projectID = key.projectID := by
  unfold mergedKey
  cases key.secret with
  | none => rfl
  | some s =>
    by_cases h : (s.length == 0) = true
    · simp [h]
    · simp [h]

theorem AddKey_reduce (store : Store) (project : Project) (key : AccessKey)
    (hpid : key.projectID = some project.id)
    (hty : key.type = "aws" ∨ key.type = "gcloud" ∨ key.type = "do" ∨
           (key.type = "ssh" ∧ secretEmpty key.secret = false)) :
    AddKey store project key = AddKeyAfterValidation store key := by
  unfold AddKey
  rcases hty with h | h | h | ⟨h, hsec⟩
  · simp [hpid, h]
  · simp [hpid, h]
  · simp [hpid, h]
  · simp [hpid, h, hsec]

theorem UpdateKey_reduce (store : Store) (oldKey key : AccessKey)
    (hty : key.type = "aws" ∨ key.type = "gcloud" ∨ key.type = "do" ∨
           (key.type = "ssh" ∧ secretEmpty key.secret = false)) :
    UpdateKey store oldKey key = UpdateKeyAfterValidation store oldKey key := by
  unfold UpdateKey
  rcases hty with h | h | h | ⟨h, hsec⟩
  · simp [h]
  · simp [h]
  · simp [h]
  · simp [h, hsec]

theorem updatedKeys_UpdateKeyAfterValidation (store : Store) (oldKey key : AccessKey) :
    updatedKeys (UpdateKeyAfterValidation store oldKey key).calls = [mergedKey oldKey key] := by
  simp only [UpdateKeyAfterValidation]
  split
  · simp [updatedKeys]
  · split <;> simp [updatedKeys]

theorem emittedEvents_UpdateKeyAfterValidation (store : Store) (oldKey key : AccessKey)
    (hua : store.updateAccessKey (mergedKey oldKey key) = none) :
    emittedEvents (UpdateKeyAfterValidation store oldKey key).calls =
      [{ projectID := oldKey.projectID, objectType := some "key",
         objectID := some oldKey.id,
         description := some ("Access Key " ++ key.name ++ " updated") }] := by
  simp only [UpdateKeyAfterValidation, hua]
  split <;> simp [emittedEvents, mergedKey_name]

theorem createdKeys_AddKeyAfterValidation (store : Store) (key : AccessKey) (s : String)
    (hsec : key.secret = some s) :
    createdKeys (AddKeyAfterValidation store key).calls
      = [{ key with secret := some (s ++ "\n") }] := by
  simp only [AddKeyAfterValidation, hsec]
  split
  · simp [createdKeys]
  · split <;> simp [createdKeys]

theorem emittedEvents_AddKeyAfterValidation (store : Store) (key nk : AccessKey) (s : String)
    (hsec : key.secret = some s)
    (hca : store.createAccessKey { key with secret := some (s ++ "\n") } = .ok nk) :
    emittedEvents (AddKeyAfterValidation store key).calls =
      [{ projectID := nk.projectID, objectType := some "key", objectID := some nk.id,
         description := some ("Access Key " ++ key.name ++ " created") }] := by
  simp only [AddKeyAfterValidation, hsec, hca]
  split <;> simp [emittedEvents]

theorem RemoveKeyEmitEvent_calls (store : Store) (key : AccessKey) (calls : List StoreCall) :
    (RemoveKeyEmitEvent store key calls).calls = calls ++
      [.createEvent { projectID := key.projectID, objectType := none, objectID := none,
                      description := some ("Access Key " ++ key.name ++ " deleted") }] := by
  simp only [RemoveKeyEmitEvent]
  split <;> rfl

theorem RemoveKeyEmitEvent_response (store : Store) (key : AccessKey) (calls : List StoreCall) :
    (RemoveKeyEmitEvent store key calls).response = .noContent := by
  simp only [RemoveKeyEmitEvent]
  split <;> rfl

/-! Claim theorems. -/

/-- C1: the claim fails on the code as written.  A valid candidate key of
type aws, gcloud or do whose Secret is absent makes `AddKey` dereference the
nil secret pointer (line 91, the unconditional newline append) before any
store call: the handler crashes instead of completing the persistence path,
for each of the three cloud types. -/
theorem addKey_cloud_absent_secret_crashes :
    AddKey okStore ⟨1⟩ ⟨0, some 1, "k", "aws", none, false⟩ = ⟨.nilDeref, [], []⟩
    ∧ AddKey okStore ⟨1⟩ ⟨0, some 1, "k", "gcloud", none, false⟩ = ⟨.nilDeref, [], []⟩
    ∧ AddKey okStore ⟨1⟩ ⟨0, some 1, "k", "do", none, false⟩ = ⟨.nilDeref, [], []⟩ := by
  refine ⟨?_, ?_, ?_⟩ <;> rfl

/-- C2, counterexample: an update payload of type ssh with an absent Secret
does not succeed with the carried-forward secret; it is rejected at
validation with no store call, contrary to the claim's universal
quantification over all keys. -/
theorem updateKey_ssh_absent_secret_rejected :
    UpdateKey okStore ⟨3, some 1, "old", "ssh", some "sec\n", false⟩
        ⟨3, some 1, "k", "ssh", none, false⟩
      = ⟨.badRequest "SSH Secret empty", [], []⟩ := by rfl

/-- C2, amended: for every update payload whose Secret is absent or empty
and whose type passes validation without a secret (aws, gcloud or do),
`UpdateKey` hands the store the payload key carrying the existing key's
stored secret unchanged, and with an otherwise-succeeding store the update
succeeds with the no-content signal. -/
theorem updateKey_absent_secret_carries_forward (store : Store) (oldKey key : AccessKey)
    (hty : key.type = "aws" ∨ key.type = "gcloud" ∨ key.type = "do")
    (hsec : secretEmpty key.secret = true) :
    updatedKeys (UpdateKey store oldKey key).calls = [{ key with secret := oldKey.secret }]
    ∧ (UpdateKey okStore oldKey key).response = .noContent := by
  have hty2 : key.type = "aws" ∨ key.type = "gcloud" ∨ key.type = "do" ∨
      (key.type = "ssh" ∧ secretEmpty key.secret = false) := by
    rcases hty with h | h | h
    · exact Or.inl h
    · exact Or.inr (Or.inl h)
    · exact Or.inr (Or.inr (Or.inl h))
  constructor
  · rw [UpdateKey_reduce store oldKey key hty2]
    rw [updatedKeys_UpdateKeyAfterValidation]
    rw [mergedKey_of_empty oldKey key hsec]
  · rw [UpdateKey_reduce okStore oldKey key hty2]
    simp only [UpdateKeyAfterValidation, okStore]

/-- C2, witness for the amended theorem at a concrete input: an aws update
with absent secret hands the store the key with the old secret and
succeeds. -/
theorem updateKey_absent_secret_carries_forward_witness :
    updatedKeys (UpdateKey okStore ⟨7, some 1, "old", "aws", some "oldsec\n", false⟩
        ⟨7, some 1, "new", "aws", none, false⟩).calls
      = [⟨7, some 1, "new", "aws", some "oldsec\n", false⟩]
    ∧ (UpdateKey okStore ⟨7, some 1, "old", "aws", some "oldsec\n", false⟩
        ⟨7, some 1, "new", "aws", none, false⟩).response = .noContent :=
  updateKey_absent_secret_carries_forward okStore
    ⟨7, some 1, "old", "aws", some "oldsec\n", false⟩
    ⟨7, some 1, "new", "aws", none, false⟩ (Or.inl rfl) rfl

/-- C3, counterexample: `UpdateKey` does not keep the context-resolved key's
ProjectID.  With an existing key owned by project 1 and an update payload
carrying ProjectID 2, the key handed to the store carries ProjectID 2. -/
theorem updateKey_payload_projectID_reaches_store :
    updatedKeys (UpdateKey okStore ⟨3, some 1, "old", "aws", some "s\n", false⟩
        ⟨3, some 2, "k", "aws", some "x", false⟩).calls
      = [⟨3, some 2, "k", "aws", some "x\n", false⟩]
    ∧ (some 2 : Option Int) ≠ some 1 := by
  refine ⟨?_, by decide⟩
  rfl

/-- C3, amended: the key handed to the store by `UpdateKey` carries exactly
the ProjectID supplied in the update payload; the handler neither overwrites
it with, nor checks it against, the context-resolved existing key's
ProjectID. -/
theorem updateKey_projectID_from_payload (store : Store) (oldKey key : AccessKey)
    (hty : key.type = "aws" ∨ key.type = "gcloud" ∨ key.type = "do" ∨
           (key.type = "ssh" ∧ secretEmpty key.secret = false)) :
    (updatedKeys (UpdateKey store oldKey key).calls).map AccessKey.projectID
      = [key.projectID] := by
  rw [UpdateKey_reduce store oldKey key hty]
  rw [updatedKeys_UpdateKeyAfterValidation]
  simp [mergedKey_projectID]

/-- C3, witness for the amended theorem at a concrete input. -/
theorem updateKey_projectID_from_payload_witness :
    (updatedKeys (UpdateKey okStore ⟨3, some 1, "old", "aws", some "s\n", false⟩
        ⟨3, some 2, "k", "aws", some "x", false⟩).calls).map AccessKey.projectID
      = [some 2] :=
  updateKey_projectID_from_payload okStore
    ⟨3, some 1, "old", "aws", some "s\n", false⟩
    ⟨3, some 2, "k", "aws", some "x", false⟩ (Or.inl rfl)

/-- C4: a freshly supplied non-empty secret s is handed to the store as
exactly s with one trailing newline appended, on Create and on Update with a
new secret; the handed value is literally s ++ a single newline, so the
newline is never appended twice to the same supplied value. -/
theorem fresh_secret_normalized_once (store : Store) (project : Project)
    (oldKey key : AccessKey) (s : String)
    (hsec : key.secret = some s) (hs : s ≠ "")
    (hty : key.type = "aws" ∨ key.type = "gcloud" ∨ key.type = "do" ∨ key.type = "ssh")
    (hpid : key.projectID = some project.id) :
    createdKeys (AddKey store project key).calls = [{ key with secret := some (s ++ "\n") }]
    ∧ updatedKeys (UpdateKey store oldKey key).calls
        = [{ key with secret := some (s ++ "\n") }] := by
  have hne : secretEmpty key.secret = false := by
    rw [hsec]
    simp [secretEmpty, length_beq_zero_eq_false s hs]
  have hty2 : key.type = "aws" ∨ key.type = "gcloud" ∨ key.type = "do" ∨
      (key.type = "ssh" ∧ secretEmpty key.secret = false) := by
    rcases hty with h | h | h | h
    · exact Or.inl h
    · exact Or.inr (Or.inl h)
    · exact Or.inr (Or.inr (Or.inl h))
    · exact Or.inr (Or.inr (Or.inr ⟨h, hne⟩))
  constructor
  · rw [AddKey_reduce store project key hpid hty2]
    exact createdKeys_AddKeyAfterValidation store key s hsec
  · rw [UpdateKey_reduce store oldKey key hty2]
    rw [updatedKeys_UpdateKeyAfterValidation]
    rw [mergedKey_of_fresh oldKey key s hsec hs]

/-- C4, witness: the spec's example: an ssh key with secret abc is handed to
the store with secret abc followed by one newline, on both paths. -/
theorem fresh_secret_normalized_once_witness :
    createdKeys (AddKey okStore ⟨7⟩ ⟨0, some 7, "k", "ssh", some "abc", false⟩).calls
      = [⟨0, some 7, "k", "ssh", some "abc\n", false⟩]
    ∧ updatedKeys (UpdateKey okStore ⟨9, some 7, "old", "ssh", some "old\n", false⟩
        ⟨0, some 7, "k", "ssh", some "abc", false⟩).calls
      = [⟨0, some 7, "k", "ssh", some "abc\n", false⟩] :=
  fresh_secret_normalized_once okStore ⟨7⟩ ⟨9, some 7, "old", "ssh", some "old\n", false⟩
    ⟨0, some 7, "k", "ssh", some "abc", false⟩ "abc" rfl (by decide)
    (Or.inr (Or.inr (Or.inr rfl))) rfl

/-- C5: every validation failure is detected before any persistence attempt:
an invalid type, or type ssh with an absent or empty secret, is rejected by
both AddKey and UpdateKey with a validation error and an empty store-call
trace; a Create whose payload ProjectID is absent or differs from the
context project is rejected with a validation error and no store call. -/
theorem validation_rejects_before_store (store : Store) (project : Project)
    (oldKey key : AccessKey) :
    ((key.type ≠ "aws" ∧ key.type ≠ "gcloud" ∧ key.type ≠ "do" ∧ key.type ≠ "ssh") →
      isValidationError (AddKey store project key).response = true
      ∧ (AddKey store project key).calls = []
      ∧ isValidationError (UpdateKey store oldKey key).response = true
      ∧ (UpdateKey store oldKey key).calls = [])
    ∧ ((key.type = "ssh" ∧ secretEmpty key.secret = true) →
      isValidationError (AddKey store project key).response = true
      ∧ (AddKey store project key).calls = []
      ∧ isValidationError (UpdateKey store oldKey key).response = true
      ∧ (UpdateKey store oldKey key).calls = [])
    ∧ ((key.projectID = none ∨ key.projectID ≠ some project.id) →
      isValidationError (AddKey store project key).response = true
      ∧ (AddKey store project key).calls = []) := by
  refine ⟨?_, ?_, ?_⟩
  · rintro ⟨h1, h2, h3, h4⟩
    refine ⟨?_, ?_, ?_, ?_⟩
    · by_cases hp : key.projectID = none ∨ key.projectID ≠ some project.id
      · unfold AddKey
        rw [if_pos hp]
        rfl
      · unfold AddKey
        rw [if_neg hp]
        simp [h1, h2, h3, h4, isValidationError]
    · by_cases hp : key.projectID = none ∨ key.projectID ≠ some project.id
      · unfold AddKey
        rw [if_pos hp]
      · unfold AddKey
        rw [if_neg hp]
        simp [h1, h2, h3, h4]
    · simp [UpdateKey, h1, h2, h3, h4, isValidationError]
    · simp [UpdateKey, h1, h2, h3, h4]
  · rintro ⟨hty, hsec⟩
    refine ⟨?_, ?_, ?_, ?_⟩
    · by_cases hp : key.projectID = none ∨ key.projectID ≠ some project.id
      · unfold AddKey
        rw [if_pos hp]
        rfl
      · unfold AddKey
        rw [if_neg hp]
        simp [hty, hsec, isValidationError]
    · by_cases hp : key.projectID = none ∨ key.projectID ≠ some project.id
      · unfold AddKey
        rw [if_pos hp]
      · unfold AddKey
        rw [if_neg hp]
        simp [hty, hsec]
    · simp [UpdateKey, hty, hsec, isValidationError]
    · simp [UpdateKey, hty, hsec]
  · intro hp
    unfold AddKey
    rw [if_pos hp]
    exact ⟨rfl, rfl⟩

/-- C5, witness: concrete instantiations: an unknown type xxx, an ssh key
with absent secret, and a payload owned by project 2 created under
project 1, are each rejected with no store call. -/
theorem validation_rejects_before_store_witness :
    (isValidationError (AddKey okStore ⟨1⟩ ⟨0, some 1, "k", "xxx", some "s", false⟩).response = true
      ∧ (AddKey okStore ⟨1⟩ ⟨0, some 1, "k", "xxx", some "s", false⟩).calls = []
      ∧ isValidationError (UpdateKey okStore ⟨3, some 1, "o", "ssh", some "s\n", false⟩
          ⟨0, some 1, "k", "xxx", some "s", false⟩).response = true
      ∧ (UpdateKey okStore ⟨3, some 1, "o", "ssh", some "s\n", false⟩
          ⟨0, some 1, "k", "xxx", some "s", false⟩).calls = [])
    ∧ (isValidationError (AddKey okStore ⟨1⟩ ⟨0, some 1, "k", "ssh", none, false⟩).response = true
      ∧ (AddKey okStore ⟨1⟩ ⟨0, some 1, "k", "ssh", none, false⟩).calls = []
      ∧ isValidationError (UpdateKey okStore ⟨3, some 1, "o", "ssh", some "s\n", false⟩
          ⟨0, some 1, "k", "ssh", none, false⟩).response = true
      ∧ (UpdateKey okStore ⟨3, some 1, "o", "ssh", some "s\n", false⟩
          ⟨0, some 1, "k", "ssh", none, false⟩).calls = [])
    ∧ (isValidationError (AddKey okStore ⟨1⟩ ⟨0, some 2, "k", "ssh", some "s", false⟩).response = true
      ∧ (AddKey okStore ⟨1⟩ ⟨0, some 2, "k", "ssh", some "s", false⟩).calls = []) :=
  ⟨(validation_rejects_before_store okStore ⟨1⟩ ⟨3, some 1, "o", "ssh", some "s\n", false⟩
      ⟨0, some 1, "k", "xxx", some "s", false⟩).1
      ⟨by decide, by decide, by decide, by decide⟩,
   (validation_rejects_before_store okStore ⟨1⟩ ⟨3, some 1, "o", "ssh", some "s\n", false⟩
      ⟨0, some 1, "k", "ssh", none, false⟩).2.1 ⟨rfl, rfl⟩,
   (validation_rejects_before_store okStore ⟨1⟩ ⟨3, some 1, "o", "ssh", some "s\n", false⟩
      ⟨0, some 2, "k", "ssh", some "s", false⟩).2.2 (Or.inr (by decide))⟩

/-- C6: an audit-event write failure after a successful key mutation is
logged on all three paths, but Create and Delete still emit the no-content
success signal while Update returns without emitting any success signal. -/
theorem audit_failure_asymmetry (store : Store) (err : DbErr) (project : Project)
    (oldKey key delKey nk : AccessKey) (s : String) (pid : Int) (sr : String)
    (hev : ∀ e, store.createEvent e = .error err)
    (hsec : key.secret = some s) (hs : s ≠ "")
    (hty : key.type = "ssh") (hpid : key.projectID = some project.id)
    (hca : store.createAccessKey { key with secret := some (s ++ "\n") } = .ok nk)
    (hua : store.updateAccessKey (mergedKey oldKey key) = none)
    (hdp : delKey.projectID = some pid)
    (hsoft : store.deleteAccessKeySoft pid delKey.id = none)
    (hhard : store.deleteAccessKey pid delKey.id = none) :
    ((AddKey store project key).response = .noContent
      ∧ (AddKey store project key).logged = [err])
    ∧ ((UpdateKey store oldKey key).response = .noneWritten
      ∧ (UpdateKey store oldKey key).logged = [err])
    ∧ ((RemoveKey store delKey sr).response = .noContent
      ∧ (RemoveKey store delKey sr).logged = [err]) := by
  have hne : secretEmpty key.secret = false := by
    rw [hsec]
    simp [secretEmpty, length_beq_zero_eq_false s hs]
  have hty2 : key.type = "aws" ∨ key.type = "gcloud" ∨ key.type = "do" ∨
      (key.type = "ssh" ∧ secretEmpty key.secret = false) :=
    Or.inr (Or.inr (Or.inr ⟨hty, hne⟩))
  refine ⟨?_, ?_, ?_⟩
  · rw [AddKey_reduce store project key hpid hty2]
    simp only [AddKeyAfterValidation, hsec, hca, hev]
    exact ⟨trivial, trivial⟩
  · rw [UpdateKey_reduce store oldKey key hty2]
    simp only [UpdateKeyAfterValidation, hua, hev]
    exact ⟨trivial, trivial⟩
  · by_cases hsr : (sr.length == 0) = true
    · simp only [RemoveKey, hdp, hsr, if_true, hsoft, RemoveKeyEmitEvent, hev]
      exact ⟨trivial, trivial⟩
    · simp only [RemoveKey, hdp, hsr, if_false, hhard, RemoveKeyEmitEvent, hev]
      simp [hsr]

/-- C6, witness: with every event write failing, a concrete ssh create and
delete still return no-content with the error logged, while the concrete
update returns no success signal with the error logged. -/
theorem audit_failure_asymmetry_witness :
    ((AddKey (evFailStore (.other "boom")) ⟨1⟩ ⟨0, some 1, "k", "ssh", some "abc", false⟩).response
        = .noContent
      ∧ (AddKey (evFailStore (.other "boom")) ⟨1⟩
          ⟨0, some 1, "k", "ssh", some "abc", false⟩).logged = [.other "boom"])
    ∧ ((UpdateKey (evFailStore (.other "boom")) ⟨3, some 1, "o", "ssh", some "s\n", false⟩
          ⟨0, some 1, "k", "ssh", some "abc", false⟩).response = .noneWritten
      ∧ (UpdateKey (evFailStore (.other "boom")) ⟨3, some 1, "o", "ssh", some "s\n", false⟩
          ⟨0, some 1, "k", "ssh", some "abc", false⟩).logged = [.other "boom"])
    ∧ ((RemoveKey (evFailStore (.other "boom")) ⟨5, some 1, "d", "ssh", some "s\n", false⟩
          "1").response = .noContent
      ∧ (RemoveKey (evFailStore (.other "boom")) ⟨5, some 1, "d", "ssh", some "s\n", false⟩
          "1").logged = [.other "boom"]) :=
  audit_failure_asymmetry (evFailStore (.other "boom")) (.other "boom") ⟨1⟩
    ⟨3, some 1, "o", "ssh", some "s\n", false⟩ ⟨0, some 1, "k", "ssh", some "abc", false⟩
    ⟨5, some 1, "d", "ssh", some "s\n", false⟩
    ⟨42, some 1, "k", "ssh", some "abc\n", false⟩ "abc" 1 "1"
    (fun _ => rfl) rfl (by decide) rfl rfl rfl rfl rfl rfl rfl

/-- C7, counterexample: a successful Delete emits an audit event whose
ObjectType and ObjectID are both unset, not the constant key with the
affected key's ID: the claim fails on the Delete path. -/
theorem removeKey_event_lacks_object_fields :
    (RemoveKey okStore ⟨5, some 1, "mykey", "ssh", some "s\n", false⟩ "").response = .noContent
    ∧ (emittedEvents (RemoveKey okStore ⟨5, some 1, "mykey", "ssh", some "s\n", false⟩ "").calls).map
        (fun e => (e.objectType, e.objectID)) = [(none, none)]
    ∧ ((none : Option String), (none : Option Int)) ≠ (some "key", some 5) := by
  refine ⟨rfl, rfl, by decide⟩

/-- C7, amended: the audit events of successful Create and Update carry
ObjectType key and the affected key's ID (store-assigned for Create, the
context-resolved key's for Update), but the event of a successful Delete
carries neither an ObjectType nor an ObjectID. -/
theorem audit_event_object_fields (store : Store) (project : Project)
    (oldKey key delKey nk : AccessKey) (s : String) (pid : Int) (sr : String)
    (hsec : key.secret = some s) (hs : s ≠ "") (hty : key.type = "ssh")
    (hpid : key.projectID = some project.id)
    (hca : store.createAccessKey { key with secret := some (s ++ "\n") } = .ok nk)
    (hua : store.updateAccessKey (mergedKey oldKey key) = none)
    (hdp : delKey.projectID = some pid)
    (hsoft : store.deleteAccessKeySoft pid delKey.id = none)
    (hhard : store.deleteAccessKey pid delKey.id = none) :
    (emittedEvents (AddKey store project key).calls).map (fun e => (e.objectType, e.objectID))
      = [(some "key", some nk.id)]
    ∧ (emittedEvents (UpdateKey store oldKey key).calls).map (fun e => (e.objectType, e.objectID))
      = [(some "key", some oldKey.id)]
    ∧ (emittedEvents (RemoveKey store delKey sr).calls).map (fun e => (e.objectType, e.objectID))
      = [(none, none)] := by
  have hne : secretEmpty key.secret = false := by
    rw [hsec]
    simp [secretEmpty, length_beq_zero_eq_false s hs]
  have hty2 : key.type = "aws" ∨ key.type = "gcloud" ∨ key.type = "do" ∨
      (key.type = "ssh" ∧ secretEmpty key.secret = false) :=
    Or.inr (Or.inr (Or.inr ⟨hty, hne⟩))
  refine ⟨?_, ?_, ?_⟩
  · rw [AddKey_reduce store project key hpid hty2,
        emittedEvents_AddKeyAfterValidation store key nk s hsec hca]
    rfl
  · rw [UpdateKey_reduce store oldKey key hty2,
        emittedEvents_UpdateKeyAfterValidation store oldKey key hua]
    rfl
  · by_cases hsr : (sr.length == 0) = true
    · simp only [RemoveKey, hdp, hsr, if_true, hsoft, RemoveKeyEmitEvent_calls]
      simp [emittedEvents]
    · simp only [RemoveKey, hdp, hsr, if_false, hhard, RemoveKeyEmitEvent_calls]
      simp [hsr, emittedEvents, RemoveKeyEmitEvent_calls, hhard]

/-- C7, witness for the amended theorem: with the all-succeeding store
(which assigns ID 42 on create), the concrete create event carries
(key, 42), the update event (key, 3), and the delete event (unset, unset). -/
theorem audit_event_object_fields_witness :
    (emittedEvents (AddKey okStore ⟨1⟩ ⟨0, some 1, "k", "ssh", some "abc", false⟩).calls).map
        (fun e => (e.objectType, e.objectID)) = [(some "key", some 42)]
    ∧ (emittedEvents (UpdateKey okStore ⟨3, some 1, "o", "ssh", some "s\n", false⟩
        ⟨0, some 1, "k", "ssh", some "abc", false⟩).calls).map
        (fun e => (e.objectType, e.objectID)) = [(some "key", some 3)]
    ∧ (emittedEvents (RemoveKey okStore ⟨5, some 1, "d", "ssh", some "s\n", false⟩ "x").calls).map
        (fun e => (e.objectType, e.objectID)) = [(none, none)] :=
  audit_event_object_fields okStore ⟨1⟩ ⟨3, some 1, "o", "ssh", some "s\n", false⟩
    ⟨0, some 1, "k", "ssh", some "abc", false⟩ ⟨5, some 1, "d", "ssh", some "s\n", false⟩
    ⟨42, some 1, "k", "ssh", some "abc\n", false⟩ "abc" 1 "x"
    rfl (by decide) rfl rfl rfl rfl rfl rfl rfl

/-- C8: a hard delete on which the store reports the in-use conflict is
surfaced as the distinct bad-request response carrying inUse = true (not a
generic persistence failure), with no audit event and no success signal. -/
theorem hard_delete_in_use_conflict (store : Store) (key : AccessKey) (pid : Int)
    (sr : String) (hpid : key.projectID = some pid) (hsr : sr ≠ "")
    (hdel : store.deleteAccessKey pid key.id = some .invalidOperation) :
    RemoveKey store key sr
      = ⟨.badRequestInUse "Inventory is in use by one or more templates" true,
         [.deleteAccessKey pid key.id], []⟩
    ∧ emittedEvents (RemoveKey store key sr).calls = []
    ∧ (RemoveKey store key sr).response ≠ .noContent := by
  have hsr2 : (sr.length == 0) = false := length_beq_zero_eq_false sr hsr
  have h1 : RemoveKey store key sr
      = ⟨.badRequestInUse "Inventory is in use by one or more templates" true,
         [.deleteAccessKey pid key.id], []⟩ := by
    simp [RemoveKey, hpid, hsr2, hdel]
  refine ⟨h1, ?_, ?_⟩
  · rw [h1]
    rfl
  · rw [h1]
    simp

/-- C8, witness: a concrete hard delete against a store reporting the
in-use conflict produces exactly the inUse response with no event. -/
theorem hard_delete_in_use_conflict_witness :
    RemoveKey inUseStore ⟨5, some 1, "mykey", "ssh", some "s\n", false⟩ "true"
      = ⟨.badRequestInUse "Inventory is in use by one or more templates" true,
         [.deleteAccessKey 1 5], []⟩
    ∧ emittedEvents (RemoveKey inUseStore ⟨5, some 1, "mykey", "ssh", some "s\n", false⟩
        "true").calls = []
    ∧ (RemoveKey inUseStore ⟨5, some 1, "mykey", "ssh", some "s\n", false⟩
        "true").response ≠ .noContent :=
  hard_delete_in_use_conflict inUseStore ⟨5, some 1, "mykey", "ssh", some "s\n", false⟩
    1 "true" rfl (by decide) rfl

/-- C9: the audit event of a successful Update is recorded against the
context-resolved previous key's ProjectID and ID, independent of any
identity fields carried by the update payload. -/
theorem update_event_previous_identity (store : Store) (oldKey key : AccessKey)
    (hty : key.type = "aws" ∨ key.type = "gcloud" ∨ key.type = "do" ∨
           (key.type = "ssh" ∧ secretEmpty key.secret = false))
    (hua : store.updateAccessKey (mergedKey oldKey key) = none) :
    emittedEvents (UpdateKey store oldKey key).calls
      = [{ projectID := oldKey.projectID, objectType := some "key",
           objectID := some oldKey.id,
           description := some ("Access Key " ++ key.name ++ " updated") }] := by
  rw [UpdateKey_reduce store oldKey key hty]
  exact emittedEvents_UpdateKeyAfterValidation store oldKey key hua

/-- C9, witness: a payload carrying project 2 and ID 99 still yields an
event against the previous key's project 1 and ID 3. -/
theorem update_event_previous_identity_witness :
    emittedEvents (UpdateKey okStore ⟨3, some 1, "o", "ssh", some "s\n", false⟩
        ⟨99, some 2, "new", "aws", none, false⟩).calls
      = [{ projectID := some 1, objectType := some "key", objectID := some 3,
           description := some "Access Key new updated" }] :=
  update_event_previous_identity okStore ⟨3, some 1, "o", "ssh", some "s\n", false⟩
    ⟨99, some 2, "new", "aws", none, false⟩ (Or.inl rfl) rfl

/-- C10: Delete chooses soft versus hard deletion solely by whether the
setRemoved query parameter is a non-empty string: the empty string yields
the soft-delete store call, and any non-empty string (whatever its content)
yields the hard-delete store call. -/
theorem delete_mode_by_setRemoved (store : Store) (key : AccessKey) (pid : Int)
    (sr : String) (hpid : key.projectID = some pid) :
    (sr = "" → (RemoveKey store key sr).calls.head?
        = some (.deleteAccessKeySoft pid key.id))
    ∧ (sr ≠ "" → (RemoveKey store key sr).calls.head?
        = some (.deleteAccessKey pid key.id)) := by
  constructor
  · intro h
    subst h
    have hc : ((("" : String).length == 0) = true) := rfl
    simp only [RemoveKey, hpid, hc, if_true]
    split
    · rfl
    · rw [RemoveKeyEmitEvent_calls]
      rfl
  · intro h
    have hsr2 : (sr.length == 0) = false := length_beq_zero_eq_false sr h
    simp only [RemoveKey, hpid, hsr2, Bool.false_eq_true, if_false]
    split
    · split <;> rfl
    · rw [RemoveKeyEmitEvent_calls]
      rfl

/-- C10, witness: the empty parameter soft-deletes, and the non-empty
strings 0 and false both hard-delete. -/
theorem delete_mode_by_setRemoved_witness :
    (RemoveKey okStore ⟨5, some 1, "k", "ssh", some "s\n", false⟩ "").calls.head?
      = some (.deleteAccessKeySoft 1 5)
    ∧ (RemoveKey okStore ⟨5, some 1, "k", "ssh", some "s\n", false⟩ "0").calls.head?
      = some (.deleteAccessKey 1 5)
    ∧ (RemoveKey okStore ⟨5, some 1, "k", "ssh", some "s\n", false⟩ "false").calls.head?
      = some (.deleteAccessKey 1 5) :=
  ⟨(delete_mode_by_setRemoved okStore ⟨5, some 1, "k", "ssh", some "s\n", false⟩ 1 "" rfl).1 rfl,
   (delete_mode_by_setRemoved okStore ⟨5, some 1, "k", "ssh", some "s\n", false⟩ 1 "0" rfl).2
     (by decide),
   (delete_mode_by_setRemoved okStore ⟨5, some 1, "k", "ssh", some "s\n", false⟩ 1 "false" rfl).2
     (by decide)⟩

end Keys
